import Mathlib

/-!
Verification of the `stac47/play` test runner (`runner.py`).

The development shallowly embeds the runner: the filesystem is a list of
(name, content) pairs, the candidate program (`solution.py` run through
`python3`) is a function from its standard-input text to an exit outcome,
and the runner's side effects (prints, file opens, child-process launches)
are recorded as an explicit event trace.  Errors raised by the Python code
are modelled by an `Option RunError` result.
-/

namespace Runner

/-! ## Python string primitives used by `runner.py` -/

/-- Whitespace characters recognised by Python's `str.strip()` (restricted
to the ASCII whitespace class; the fixture contents considered here are
ASCII). -/
def isPySpace (c : Char) : Bool :=
  c = ' ' || c = '\t' || c = '\n' || c = '\r' || c = '\x0b' || c = '\x0c'

/-- Python `str.strip()`: remove leading and trailing whitespace. -/
def pyStrip (s : String) : String :=
  String.mk (((s.toList.dropWhile isPySpace).reverse.dropWhile isPySpace).reverse)

/-- Helper for `pySplitlines`: split on a newline character, accumulator
holds the current (reversed) line. -/
def splitlinesAux : List Char → List Char → List String
  | [], acc => if acc = [] then [] else [String.mk acc.reverse]
  | c :: cs, acc =>
      if c = '\n' then String.mk acc.reverse :: splitlinesAux cs []
      else splitlinesAux cs (c :: acc)

/-- Python `str.splitlines()` on `\n`-terminated text: line terminators are
removed, and a stream ending cleanly in a newline contributes no trailing
empty line.  (Python also splits on other terminators such as `\r`; the
texts handled by the runner are modelled as `\n`-separated.) -/
def pySplitlines (s : String) : List String :=
  splitlinesAux s.toList []

/-- Helper for `pyReadlines`: like `splitlinesAux` but each line keeps its
terminating newline, as Python's `file.readlines()` does. -/
def readlinesAux : List Char → List Char → List String
  | [], acc => if acc = [] then [] else [String.mk acc.reverse]
  | c :: cs, acc =>
      if c = '\n' then String.mk ('\n' :: acc).reverse :: readlinesAux cs []
      else readlinesAux cs (c :: acc)

/-- Python `file.readlines()` for `\n`-terminated text: lines retain their
terminators, a final unterminated line is kept as-is. -/
def pyReadlines (s : String) : List String :=
  readlinesAux s.toList []

/-- Python `name.replace("input_", "output_")` specialised to the two
literal tokens of `runner.py`: every non-overlapping occurrence of
`input_` is replaced, scanning left to right. -/
def replaceInputToken : List Char → List Char
  | 'i' :: 'n' :: 'p' :: 'u' :: 't' :: '_' :: rest =>
      'o' :: 'u' :: 't' :: 'p' :: 'u' :: 't' :: '_' :: replaceInputToken rest
  | c :: rest => c :: replaceInputToken rest
  | [] => []

/-- Name of the expected-output counterpart of an input fixture, as
computed by line 52 of `runner.py`. -/
def outputName (s : String) : String :=
  String.mk (replaceInputToken s.toList)

/-- Python's `str.startswith`, character by character. -/
def strStarts (s p : String) : Bool :=
  p.toList.isPrefixOf s.toList

/-- Python's `str.endswith`, character by character. -/
def strEnds (s p : String) : Bool :=
  p.toList.isSuffixOf s.toList

/-- Whether a filename matches the glob pattern `input_*.txt` used for
fixture discovery (line 51 of `runner.py`): a literal `input_` head, a
literal `.txt` tail, and enough characters that the two do not overlap. -/
def matchesInputGlob (name : String) : Bool :=
  strStarts name ("input_") && strEnds name (".txt") && 10 ≤ name.length

/-! ## Model of `difflib.Differ().compare`

`runner.py` compares the candidate's output lines with the expected lines
through `difflib.Differ().compare`, which tags every emitted line with
`"  "` (common), `"- "` (only in the first sequence) or `"+ "` (only in
the second sequence).  The model below follows CPython's
`SequenceMatcher`/`Differ` with no junk heuristic (the runner installs
none, and autojunk only affects sequences of 200+ lines, longer than any
instance reasoned about here).  Replace opcodes are rendered with
`Differ._plain_replace`; difflib's `_fancy_replace` additionally emits
`? ` guide lines when the two sides contain sufficiently similar lines,
a path not taken by any instance appearing in this development. -/

/-- Length of the common prefix of two line sequences. -/
def commonPrefixLen : List String → List String → Nat
  | x :: xs, y :: ys => if x = y then commonPrefixLen xs ys + 1 else 0
  | _, _ => 0

/-- Length of the matching run of `a`/`b` starting at positions `i`/`j`,
truncated to the window ends `ahi`/`bhi`. -/
def winRunLen (a b : List String) (ahi bhi i j : Nat) : Nat :=
  min (commonPrefixLen (a.drop i) (b.drop j)) (min (ahi - i) (bhi - j))

/-- The list `[s, s+1, ..., s+n-1]` (Python's `range(s, s+n)`). -/
def natRange : Nat → Nat → List Nat
  | _, 0 => []
  | s, n + 1 => s :: natRange (s + 1) n

/-- One candidate position of `SequenceMatcher.find_longest_match`: record
the run starting at `(i, j)` when it strictly beats the best so far. -/
def flmStep (a b : List String) (ahi bhi i : Nat) (best : Nat × Nat × Nat) (j : Nat) :
    Nat × Nat × Nat :=
  let k := winRunLen a b ahi bhi i j
  if best.2.2 < k then (i, j, k) else best

/-- `SequenceMatcher.find_longest_match` restricted to the no-junk case:
the longest matching block inside the window, ties resolved towards the
smallest starting position in `a`, then in `b` (the scan order of the
CPython implementation). -/
def findLongestMatch (a b : List String) (alo ahi blo bhi : Nat) :
    Nat × Nat × Nat :=
  (natRange alo (ahi - alo)).foldl
    (fun best i => (natRange blo (bhi - blo)).foldl (flmStep a b ahi bhi i) best)
    (alo, blo, 0)

/-- Recursive collection of matching blocks, as in
`SequenceMatcher.get_matching_blocks` (the blocks are produced already
sorted; the fuel strictly bounds the recursion depth). -/
def matchingBlocksAux (a b : List String) :
    Nat → Nat → Nat → Nat → Nat → List (Nat × Nat × Nat)
  | 0, _, _, _, _ => []
  | fuel + 1, alo, ahi, blo, bhi =>
      let m := findLongestMatch a b alo ahi blo bhi
      if m.2.2 = 0 then []
      else
        matchingBlocksAux a b fuel alo m.1 blo m.2.1 ++
          m :: matchingBlocksAux a b fuel (m.1 + m.2.2) ahi (m.2.1 + m.2.2) bhi

/-- All matching blocks of `a` and `b`, with the terminating sentinel
block `(|a|, |b|, 0)`. -/
def matchingBlocks (a b : List String) : List (Nat × Nat × Nat) :=
  matchingBlocksAux a b (a.length + b.length + 1) 0 a.length 0 b.length ++
    [(a.length, b.length, 0)]

/-- Tags of `SequenceMatcher.get_opcodes`. -/
inductive DTag
  | replace
  | delete
  | insert
  | equal
deriving DecidableEq, Repr

/-- `SequenceMatcher.get_opcodes`: walk the matching blocks, tagging the
gaps between consecutive blocks and the blocks themselves. -/
def opcodesAux : Nat → Nat → List (Nat × Nat × Nat) → List (DTag × Nat × Nat × Nat × Nat)
  | _, _, [] => []
  | i, j, (ai, bj, size) :: rest =>
      let gap : List (DTag × Nat × Nat × Nat × Nat) :=
        if i < ai ∧ j < bj then [(DTag.replace, i, ai, j, bj)]
        else if i < ai then [(DTag.delete, i, ai, j, bj)]
        else if j < bj then [(DTag.insert, i, ai, j, bj)]
        else []
      let eqs : List (DTag × Nat × Nat × Nat × Nat) :=
        if size ≠ 0 then [(DTag.equal, ai, ai + size, bj, bj + size)] else []
      gap ++ eqs ++ opcodesAux (ai + size) (bj + size) rest

/-- `Differ._dump`: emit the slice `l[lo:hi]`, each line prefixed with the
tag character and a space. -/
def dumpTag (t : String) (l : List String) (lo hi : Nat) : List String :=
  ((l.drop lo).take (hi - lo)).map (fun s => t ++ (" ") ++ s)

/-- `Differ._plain_replace`: dump the shorter side first (`-` lines for
the first sequence, `+` lines for the second). -/
def plainReplace (a b : List String) (alo ahi blo bhi : Nat) : List String :=
  if bhi - blo < ahi - alo then
    dumpTag ("+") b blo bhi ++ dumpTag ("-") a alo ahi
  else
    dumpTag ("-") a alo ahi ++ dumpTag ("+") b blo bhi

/-- Render one opcode into its diff lines. -/
def renderOpcode (a b : List String) : DTag × Nat × Nat × Nat × Nat → List String
  | (DTag.replace, alo, ahi, blo, bhi) => plainReplace a b alo ahi blo bhi
  | (DTag.delete, alo, ahi, _, _) => dumpTag ("-") a alo ahi
  | (DTag.insert, _, _, blo, bhi) => dumpTag ("+") b blo bhi
  | (DTag.equal, alo, ahi, _, _) => dumpTag (" ") a alo ahi

/-- `list(difflib.Differ().compare(a, b))` (line 74 of `runner.py`). -/
def differCompare (a b : List String) : List String :=
  ((opcodesAux 0 0 (matchingBlocks a b)).map (renderOpcode a b)).flatten

/-! ## Model of the runner proper -/

/-- An exercise directory: an association list from filename to text
content, in directory-iteration order (the order `glob` yields, an
accepted nondeterminism of the program fixed once per run). -/
abbrev FileSys := List (String × String)

/-- Whether a file exists in the directory (`Path.exists`). -/
def fileExists (fs : FileSys) (name : String) : Bool :=
  (List.lookup name fs).isSome

/-- Content of a file of the directory (the runner only reads files whose
existence was established, so the default is never exercised on the
program's own paths). -/
def fileContent (fs : FileSys) (name : String) : String :=
  (List.lookup name fs).getD ("")

/-- Outcome of launching the candidate program once
(`subprocess.run(["python3", solution], capture_output=True, stdin=...,
check=True)`): either the child completed with an exit status and a
captured standard-output text, or it could not be launched at all. -/
inductive ExecResult
  | completed (returncode : Nat) (stdout : String)
  | launchFailure
deriving DecidableEq, Repr

/-- The candidate program, modelled as a fixed deterministic function from
the text fed on its standard input to an execution outcome. -/
def Prog := String → ExecResult

/-- Observable side effects of a run, in order: lines printed by `print`,
fixture files opened, and candidate-program launches (recorded with the
standard-input text fed to the child). -/
inductive Event
  | printed (s : String)
  | opened (name : String)
  | executed (stdin : String)
deriving DecidableEq, Repr

/-- Errors raised by `run` (lines 49, 55, 62-67 and 77 of `runner.py`).
`calledProcessError` models `subprocess.CalledProcessError` from
`check=True` on a nonzero exit status; `osError` models the failure to
launch the child at all. -/
inductive RunError
  | solutionNotFound
  | missingTestOutput (testInput testOutput : String)
  | calledProcessError (returncode : Nat)
  | osError
  | notExpectedOutput (diffs : List String)
deriving DecidableEq, Repr

/-- Path of a directory entry as Python's `game_dir / name` renders it. -/
def pathJoin (d name : String) : String :=
  d ++ ("/") ++ name

/-- Names of the discovered input fixtures, in directory order
(`game_dir.glob("input_*.txt")`). -/
def discoverInputs (fs : FileSys) : List String :=
  (fs.filter (fun f => matchesInputGlob f.1)).map (fun f => f.1)

/-- The pairing loop of lines 51-56: associate every input fixture with
its computed counterpart, failing on the first input whose counterpart
does not exist. -/
def buildSuite (fs : FileSys) : List String → Except (String × String) (List (String × String))
  | [] => Except.ok []
  | i :: rest =>
      let o := outputName i
      if fileExists fs o then
        match buildSuite fs rest with
        | Except.ok pairs => Except.ok ((i, o) :: pairs)
        | Except.error e => Except.error e
      else Except.error (i, o)

/-- The per-fixture loop of lines 57-78: print the running banner, open
the input fixture, launch the candidate program on it, compare its output
lines against the stripped expected lines with `differCompare`, and stop
at the first failure. -/
def execLoop (d : String) (fs : FileSys) (prog : Prog) :
    List (String × String) → List Event × Option RunError
  | [] => ([], none)
  | (i, o) :: rest =>
      let ic := fileContent fs i
      let ev0 : List Event :=
        [Event.printed (("Running '") ++ pathJoin d i ++ ("': ")),
         Event.opened i, Event.executed ic]
      match prog ic with
      | ExecResult.launchFailure => (ev0, some RunError.osError)
      | ExecResult.completed code s =>
          if code ≠ 0 then (ev0, some (RunError.calledProcessError code))
          else
            let output := pySplitlines s
            let expected := (pyReadlines (fileContent fs o)).map pyStrip
            let diffs := differCompare output expected
            if diffs.length ≠ expected.length then
              (ev0 ++ [Event.opened o, Event.printed ("FAIL")],
               some (RunError.notExpectedOutput diffs))
            else
              let r := execLoop d fs prog rest
              (ev0 ++ [Event.opened o, Event.printed ("OK")] ++ r.1, r.2)

/-- `run(game_dir)` (lines 44-78): check `solution.py` exists, resolve the
fixture pairs, then execute them in order. -/
def run (d : String) (fs : FileSys) (prog : Prog) : List Event × Option RunError :=
  if fileExists fs ("solution.py") then
    match buildSuite fs (discoverInputs fs) with
    | Except.error e =>
        ([], some (RunError.missingTestOutput (pathJoin d e.1) (pathJoin d e.2)))
    | Except.ok pairs => execLoop d fs prog pairs
  else ([], some RunError.solutionNotFound)

/-- Message of each error as printed by the top-level handler (`str(err)`).
The second line of `MissingTestOutputError.__str__` is a plain string in
the source, not an f-string, so the braces are reproduced literally.  The
texts for `calledProcessError` and `osError` stand in for messages built
by the Python runtime from data outside this model (the absolute solution
path, the OS error cause); no theorem below depends on them. -/
def errStr : RunError → String
  | RunError.solutionNotFound => ("")
  | RunError.missingTestOutput _ o =>
      ("Cannot find the test output '") ++ o ++ ("' ") ++
        ("associated to the test input '\x7bself.test_input\x7d'")
  | RunError.calledProcessError c =>
      ("Command returned non-zero exit status ") ++ toString c ++ (".")
  | RunError.osError => ("could not launch the solution process")
  | RunError.notExpectedOutput diffs =>
      ("Diff between your output and the expected output:\n") ++
        String.intercalate ("\n") diffs

/-- The argument check `re.match(r"^[0-9]{4}", game_to_run)` of line 88:
the first four characters exist and are ASCII digits. -/
def matchesGameId (s : String) : Bool :=
  match s.toList with
  | c1 :: c2 :: c3 :: c4 :: _ => c1.isDigit && c2.isDigit && c3.isDigit && c4.isDigit
  | _ => false

/-- Whether a character list contains an occurrence of the literal token
`input_` (the token `name.replace` scans for). -/
def hasInputTok : List Char → Bool
  | 'i' :: 'n' :: 'p' :: 'u' :: 't' :: '_' :: _ => true
  | _ :: rest => hasInputTok rest
  | [] => false

/-- A fixture pair that the verdict engine accepts: the candidate process
completes with exit status 0 and the diff line count equals the expected
line count. -/
def pairPasses (fs : FileSys) (prog : Prog) (p : String × String) : Prop :=
  ∃ s, prog (fileContent fs p.1) = ExecResult.completed 0 s ∧
    (differCompare (pySplitlines s) ((pyReadlines (fileContent fs p.2)).map pyStrip)).length =
      ((pyReadlines (fileContent fs p.2)).map pyStrip).length

/-- The event trace contributed by one passing fixture pair. -/
def passEvents (d : String) (fs : FileSys) (p : String × String) : List Event :=
  [Event.printed (("Running '") ++ pathJoin d p.1 ++ ("': ")), Event.opened p.1,
   Event.executed (fileContent fs p.1), Event.opened p.2, Event.printed ("OK")]

/-- The lines printed by a trace. -/
def printsOf (evs : List Event) : List String :=
  evs.filterMap (fun e =>
    match e with
    | Event.printed s => some s
    | _ => none)

/-- `main()` (lines 81-108): validate the argument, select the first
directory of the working directory whose name starts with the identifier,
run it, and convert the outcome to printed lines and an exit code.  The
working directory is modelled as the list of its entries in iteration
order, each an exercise directory. -/
def main (argv : List String) (root : List (String × FileSys)) (prog : Prog) :
    List String × Nat :=
  match argv with
  | [_, game] =>
      if matchesGameId game then
        match root.find? (fun d => strStarts d.1 game) with
        | none => ([("Game [") ++ game ++ ("] cannot be found")], 1)
        | some sel =>
            let r := run sel.1 sel.2 prog
            match r.2 with
            | none => (printsOf r.1 ++ [("Bravo")], 0)
            | some e =>
                (printsOf r.1 ++
                   [("Your solution does not work. Error: ") ++ errStr e], 1)
      else ([("Game [") ++ game ++ ("] should be 4-digits string")], 1)
  | _ => ([("Missing the game to start")], 1)

/-! ## Concrete instances used as witnesses and counterexamples -/

/-- The empty exercise directory (every content lookup yields `""`). -/
def fsEmpty : FileSys := []

/-- A candidate program printing nothing, exit status 0. -/
def progEmptyOut : Prog := fun _ => ExecResult.completed 0 ("")

/-- A candidate program printing one line `x`, exit status 0. -/
def progOneLine : Prog := fun _ => ExecResult.completed 0 ("x\n")

/-- Exercise directory whose expected output has two lines `a`, `b`. -/
def fsTwoLines : FileSys :=
  [(("solution.py"), ("")), (("input_1.txt"), ("1\n")), (("output_1.txt"), ("a\nb\n"))]

/-- A candidate program printing only the line `a`, exit status 0: its
output is `fsTwoLines`' expected output with the last line removed. -/
def progFirstLineOnly : Prog := fun _ => ExecResult.completed 0 ("a\n")

/-- Exercise directory whose expected-output fixture carries surrounding
whitespace (` ab `) that normalization strips. -/
def fsSpacedExpected : FileSys :=
  [(("solution.py"), ("")), (("input_1.txt"), ("ab\n")), (("output_1.txt"), (" ab \n"))]

/-- A candidate program printing the clean line `ab`. -/
def progPlainAb : Prog := fun _ => ExecResult.completed 0 ("ab\n")

/-- Exercise directory whose expected-output fixture is the clean line
`ab`. -/
def fsPlainExpected : FileSys :=
  [(("solution.py"), ("")), (("input_1.txt"), ("ab\n")), (("output_1.txt"), ("ab\n"))]

/-- A candidate program printing ` ab ` with surrounding whitespace. -/
def progSpacedAb : Prog := fun _ => ExecResult.completed 0 (" ab \n")

/-- Exercise directory with a fixture but no `solution.py`. -/
def fsNoSolution : FileSys := [(("input_1.txt"), (""))]

/-- Exercise directory with a solution and an input fixture but no
matching output fixture. -/
def fsMissingOut : FileSys := [(("solution.py"), ("")), (("input_1.txt"), (""))]

/-- Directory contents for the execution-failure scenario: the first
fixture's input is `one`, the second's is `two`. -/
def fsTwoFixtures : FileSys :=
  [(("solution.py"), ("")), (("i1"), ("one")), (("i2"), ("two"))]

/-- A candidate program that succeeds (silently) on input `one` and exits
with status 3 on anything else. -/
def progFailsOnTwo : Prog := fun s =>
  if s = ("one") then ExecResult.completed 0 ("") else ExecResult.completed 3 ("")

/-- Exercise directory containing only a solution (no fixtures). -/
def fsSolOnly : FileSys := [(("solution.py"), (""))]

/-- A working directory with a single exercise directory `0001-demo`. -/
def rootDemo : List (String × FileSys) := [(("0001-demo"), fsSolOnly)]

end Runner

namespace Runner

/-! ## General lemmas about the diff model -/

/-- The common prefix of `a` and `a ++ t` is all of `a`. -/
theorem commonPrefixLen_self_append (a t : List String) :
    commonPrefixLen a (a ++ t) = a.length := by
  induction a with
  | nil => cases t <;> simp [commonPrefixLen]
  | cons h l ih => simp [commonPrefixLen, ih]

/-- A fold whose step fixes `B` returns `B`. -/
theorem foldl_fixed {α : Type} {β : Type} (f : α → β → α) (B : α) (l : List β)
    (h : ∀ x ∈ l, f B x = B) : l.foldl f B = B := by
  induction l with
  | nil => rfl
  | cons x xs ih =>
      rw [List.foldl_cons, h x (by simp)]
      exact ih (fun y hy => h y (by simp [hy]))

/-- A matching run starting at `i` never exceeds the remaining window. -/
theorem winRunLen_le (a b : List String) (ahi bhi i j : Nat) :
    winRunLen a b ahi bhi i j ≤ ahi - i :=
  le_trans (min_le_right _ _) (min_le_left _ _)

/-- Once the recorded best block spans the whole `a`-window, no candidate
position updates it. -/
theorem flmStep_keep (a b : List String) (ahi bhi i j : Nat) (B : Nat × Nat × Nat)
    (hB : ahi ≤ B.2.2) : flmStep a b ahi bhi i B j = B := by
  have h1 := winRunLen_le a b ahi bhi i j
  have h2 : ahi - i ≤ ahi := Nat.sub_le _ _
  simp only [flmStep]
  rw [if_neg (by omega)]

/-- When the run at the window origin spans the whole `a`-window, the
longest-match search returns exactly that block. -/
theorem findLongestMatch_full (a b : List String) (ahi bhi : Nat)
    (h1 : winRunLen a b ahi bhi 0 0 = ahi) (h2 : 0 < ahi) (h3 : 0 < bhi) :
    findLongestMatch a b 0 ahi 0 bhi = (0, 0, ahi) := by
  obtain ⟨m, rfl⟩ : ∃ m, ahi = m + 1 := ⟨ahi - 1, by omega⟩
  obtain ⟨p, rfl⟩ : ∃ p, bhi = p + 1 := ⟨bhi - 1, by omega⟩
  have hstep0 : flmStep a b (m + 1) (p + 1) 0 (0, 0, 0) 0 = (0, 0, m + 1) := by
    simp only [flmStep, h1]
    rw [if_pos (by omega)]
  have hInner0 : (natRange 0 (p + 1)).foldl (flmStep a b (m + 1) (p + 1) 0) (0, 0, 0) =
      (0, 0, m + 1) := by
    rw [show natRange 0 (p + 1) = 0 :: natRange 1 p from rfl, List.foldl_cons, hstep0]
    exact foldl_fixed _ _ _ (fun j _ => flmStep_keep a b (m + 1) (p + 1) 0 j _ (le_refl _))
  have hOuter : ∀ i ∈ natRange 1 m,
      (natRange 0 (p + 1)).foldl (flmStep a b (m + 1) (p + 1) i) (0, 0, m + 1) =
        (0, 0, m + 1) :=
    fun i _ => foldl_fixed _ _ _ (fun j _ => flmStep_keep a b (m + 1) (p + 1) i j _ (le_refl _))
  unfold findLongestMatch
  simp only [Nat.sub_zero]
  rw [show natRange 0 (m + 1) = 0 :: natRange 1 m from rfl]
  simp only [List.foldl_cons]
  rw [hInner0]
  exact foldl_fixed _ _ _ hOuter

/-- An empty `a`-window produces no matching block. -/
theorem matchingBlocksAux_empty (a b : List String) (fuel alo ahi blo bhi : Nat)
    (h : ahi ≤ alo) : matchingBlocksAux a b fuel alo ahi blo bhi = [] := by
  cases fuel with
  | zero => rfl
  | succ f =>
      have h0 : ahi - alo = 0 := by omega
      simp [matchingBlocksAux, findLongestMatch, h0, natRange]

/-- The run at the origin of `a` versus `a ++ [x]` spans all of `a`. -/
theorem winRunLen_self_append (a : List String) (x : String) :
    winRunLen a (a ++ [x]) a.length (a.length + 1) 0 0 = a.length := by
  simp [winRunLen, commonPrefixLen_self_append]

/-- Unfolding of `matchingBlocksAux` at a successor fuel value. -/
theorem matchingBlocksAux_succ (a b : List String) (fuel alo ahi blo bhi : Nat) :
    matchingBlocksAux a b (fuel + 1) alo ahi blo bhi =
      (if (findLongestMatch a b alo ahi blo bhi).2.2 = 0 then []
       else
         matchingBlocksAux a b fuel alo (findLongestMatch a b alo ahi blo bhi).1 blo
             (findLongestMatch a b alo ahi blo bhi).2.1 ++
           findLongestMatch a b alo ahi blo bhi ::
             matchingBlocksAux a b fuel
               ((findLongestMatch a b alo ahi blo bhi).1 +
                 (findLongestMatch a b alo ahi blo bhi).2.2)
               ahi
               ((findLongestMatch a b alo ahi blo bhi).2.1 +
                 (findLongestMatch a b alo ahi blo bhi).2.2)
               bhi) := rfl

/-- Matching a nonempty list against itself extended by one line yields
the full-list block and the sentinel. -/
theorem matchingBlocks_self_append (h : String) (t : List String) (x : String) :
    matchingBlocks (h :: t) ((h :: t) ++ [x]) =
      [(0, 0, (h :: t).length), ((h :: t).length, (h :: t).length + 1, 0)] := by
  have hflm : findLongestMatch (h :: t) ((h :: t) ++ [x]) 0 (h :: t).length 0
      ((h :: t).length + 1) = (0, 0, (h :: t).length) :=
    findLongestMatch_full _ _ _ _ (winRunLen_self_append _ _) (by simp) (by omega)
  unfold matchingBlocks
  rw [show ((h :: t) ++ [x]).length = (h :: t).length + 1 by simp]
  rw [matchingBlocksAux_succ, hflm]
  simp only []
  rw [if_neg (by simp)]
  rw [matchingBlocksAux_empty _ _ _ _ _ _ _ (le_refl 0),
      matchingBlocksAux_empty _ _ _ _ _ _ _ (by omega)]
  simp

/-- Diffing a list against itself extended by one line: every common line
is emitted unchanged and the extra line is emitted as an addition, so the
diff has exactly one more line than the first sequence. -/
theorem differCompare_self_append (a : List String) (x : String) :
    differCompare a (a ++ [x]) =
      a.map (fun s => ("  ") ++ s) ++ [("+ ") ++ x] := by
  cases a with
  | nil => rfl
  | cons h t =>
      unfold differCompare
      rw [matchingBlocks_self_append]
      have hop : opcodesAux 0 0
          [(0, 0, (h :: t).length), ((h :: t).length, (h :: t).length + 1, 0)] =
          [(DTag.equal, 0, (h :: t).length, 0, (h :: t).length),
           (DTag.insert, (h :: t).length, (h :: t).length, (h :: t).length,
            (h :: t).length + 1)] := by
        simp [opcodesAux]
      rw [hop, List.map_cons, List.map_cons, List.map_nil]
      have hEq : renderOpcode (h :: t) ((h :: t) ++ [x])
          (DTag.equal, 0, (h :: t).length, 0, (h :: t).length) =
          (h :: t).map (fun s => ("  ") ++ s) := by
        simp only [renderOpcode, dumpTag, List.drop_zero, Nat.sub_zero, List.take_length]
        rfl
      have hIns : renderOpcode (h :: t) ((h :: t) ++ [x])
          (DTag.insert, (h :: t).length, (h :: t).length, (h :: t).length,
           (h :: t).length + 1) = [("+ ") ++ x] := by
        simp only [renderOpcode, dumpTag, List.drop_left, Nat.add_sub_cancel_left]
        rfl
      rw [hEq, hIns]
      simp

/-! ## General lemmas about the runner -/

/-- `name.replace` leaves a token-free name unchanged. -/
theorem replaceInputToken_id (cs : List Char) (h : hasInputTok cs = false) :
    replaceInputToken cs = cs := by
  induction cs using replaceInputToken.induct with
  | case1 rest => simp [hasInputTok] at h
  | case2 c rest hne ih =>
      rw [hasInputTok] at h
      · rw [replaceInputToken]
        · rw [ih h]
        · exact hne
      · exact hne
  | case3 => rfl

/-- The pairing loop fails on the first discovered input whose counterpart
is missing. -/
theorem buildSuite_error_first (fs : FileSys) (l : List String) (i : String)
    (hmem : i ∈ l) (hmiss : fileExists fs (outputName i) = false) :
    ∃ i0, l.find? (fun n => ! fileExists fs (outputName n)) = some i0 ∧
      buildSuite fs l = Except.error (i0, outputName i0) := by
  induction l with
  | nil => cases hmem
  | cons n rest ih =>
      cases hEx : fileExists fs (outputName n) with
      | false =>
          refine ⟨n, ?_, ?_⟩
          · rw [List.find?_cons_of_pos _ (by simp [hEx])]
          · simp [buildSuite, hEx]
      | true =>
          have hmem' : i ∈ rest := by
            rcases List.mem_cons.mp hmem with h1 | h1
            · subst h1; rw [hEx] at hmiss; cases hmiss
            · exact h1
          obtain ⟨i0, hfind, hbs⟩ := ih hmem'
          refine ⟨i0, ?_, ?_⟩
          · rw [List.find?_cons_of_neg _ (by simp [hEx]), hfind]
          · simp [buildSuite, hEx, hbs]

/-- A passing fixture pair contributes its five events and the loop
continues with the remaining pairs. -/
theorem execLoop_cons_pass (d : String) (fs : FileSys) (prog : Prog)
    (i o : String) (rest : List (String × String)) (s : String)
    (hexec : prog (fileContent fs i) = ExecResult.completed 0 s)
    (hlen : (differCompare (pySplitlines s)
        ((pyReadlines (fileContent fs o)).map pyStrip)).length =
      ((pyReadlines (fileContent fs o)).map pyStrip).length) :
    execLoop d fs prog ((i, o) :: rest) =
      ([Event.printed (("Running '") ++ pathJoin d i ++ ("': ")),
        Event.opened i, Event.executed (fileContent fs i),
        Event.opened o, Event.printed ("OK")] ++ (execLoop d fs prog rest).1,
       (execLoop d fs prog rest).2) := by
  simp [execLoop, hexec, hlen]

/-- A prefix of passing fixture pairs contributes its events and leaves
the verdict of the remaining pairs unchanged. -/
theorem execLoop_pass_front (d : String) (fs : FileSys) (prog : Prog)
    (pre l : List (String × String)) (hpre : ∀ p ∈ pre, pairPasses fs prog p) :
    execLoop d fs prog (pre ++ l) =
      ((pre.map (passEvents d fs)).flatten ++ (execLoop d fs prog l).1,
       (execLoop d fs prog l).2) := by
  induction pre with
  | nil => simp
  | cons p pre' ih =>
      obtain ⟨i, o⟩ := p
      obtain ⟨s, hs, hlen⟩ := hpre (i, o) (by simp)
      rw [List.cons_append, execLoop_cons_pass d fs prog i o (pre' ++ l) s hs hlen,
          ih (fun q hq => hpre q (by simp [hq]))]
      simp [passEvents]

end Runner

namespace Runner

/-! ## Claim theorems -/

/-- C1: for a fixture pair reached by the verdict loop whose candidate
process completes with exit status 0, the test passes iff the number of
lines produced by the line diff of the actual output lines against the
normalized expected lines equals the number of expected lines: on pass
`OK` is printed and the loop continues with the next pair, on fail `FAIL`
is printed and the run aborts with `NotExpectedOutputError` carrying the
full diff listing. -/
theorem run_pass_iff_diff_count (d : String) (fs : FileSys) (prog : Prog)
    (i o : String) (rest : List (String × String)) (s : String)
    (hexec : prog (fileContent fs i) = ExecResult.completed 0 s) :
    ((differCompare (pySplitlines s) ((pyReadlines (fileContent fs o)).map pyStrip)).length =
        ((pyReadlines (fileContent fs o)).map pyStrip).length →
      execLoop d fs prog ((i, o) :: rest) =
        ([Event.printed (("Running '") ++ pathJoin d i ++ ("': ")), Event.opened i,
          Event.executed (fileContent fs i), Event.opened o, Event.printed ("OK")] ++
            (execLoop d fs prog rest).1,
         (execLoop d fs prog rest).2)) ∧
    ((differCompare (pySplitlines s) ((pyReadlines (fileContent fs o)).map pyStrip)).length ≠
        ((pyReadlines (fileContent fs o)).map pyStrip).length →
      execLoop d fs prog ((i, o) :: rest) =
        ([Event.printed (("Running '") ++ pathJoin d i ++ ("': ")), Event.opened i,
          Event.executed (fileContent fs i), Event.opened o, Event.printed ("FAIL")],
         some (RunError.notExpectedOutput
           (differCompare (pySplitlines s) ((pyReadlines (fileContent fs o)).map pyStrip))))) := by
  constructor
  · intro hlen
    exact execLoop_cons_pass d fs prog i o rest s hexec hlen
  · intro hlen
    have hlen' : (differCompare (pySplitlines s)
        ((pyReadlines (fileContent fs o)).map pyStrip)).length ≠
          (pyReadlines (fileContent fs o)).length := by
      simpa using hlen
    simp [execLoop, hexec, hlen']

/-- Witness for C1: a passing pair (empty output, empty expectation) and a
failing pair (one output line, empty expectation). -/
theorem run_pass_iff_diff_count_witness :
    (progEmptyOut (fileContent fsEmpty ("i")) = ExecResult.completed 0 ("") ∧
     (differCompare (pySplitlines (""))
         ((pyReadlines (fileContent fsEmpty ("o"))).map pyStrip)).length =
       ((pyReadlines (fileContent fsEmpty ("o"))).map pyStrip).length ∧
     execLoop ("g") fsEmpty progEmptyOut [(("i"), ("o"))] =
       ([Event.printed (("Running '") ++ pathJoin ("g") ("i") ++ ("': ")), Event.opened ("i"),
         Event.executed (fileContent fsEmpty ("i")), Event.opened ("o"),
         Event.printed ("OK")] ++ (execLoop ("g") fsEmpty progEmptyOut []).1,
        (execLoop ("g") fsEmpty progEmptyOut []).2)) ∧
    (progOneLine (fileContent fsEmpty ("i")) = ExecResult.completed 0 ("x\n") ∧
     (differCompare (pySplitlines ("x\n"))
         ((pyReadlines (fileContent fsEmpty ("o"))).map pyStrip)).length ≠
       ((pyReadlines (fileContent fsEmpty ("o"))).map pyStrip).length ∧
     execLoop ("g") fsEmpty progOneLine [(("i"), ("o"))] =
       ([Event.printed (("Running '") ++ pathJoin ("g") ("i") ++ ("': ")), Event.opened ("i"),
         Event.executed (fileContent fsEmpty ("i")), Event.opened ("o"),
         Event.printed ("FAIL")],
        some (RunError.notExpectedOutput
          (differCompare (pySplitlines ("x\n"))
            ((pyReadlines (fileContent fsEmpty ("o"))).map pyStrip))))) :=
  ⟨⟨rfl, by decide,
    (run_pass_iff_diff_count ("g") fsEmpty progEmptyOut ("i") ("o") [] ("") rfl).1 (by decide)⟩,
   ⟨rfl, by decide,
    (run_pass_iff_diff_count ("g") fsEmpty progOneLine ("i") ("o") [] ("x\n") rfl).2 (by decide)⟩⟩

/-- C2 counterexample: in `fsTwoLines` the expected output has the two
lines `a`, `b` and the candidate prints exactly the first of them (one
fewer line than expected, all other lines equal) — yet the run prints
`OK`, raises nothing, and the diff line count equals the expected line
count, contradicting the claimed `FAIL`. -/
theorem one_fewer_line_passes_cx :
    (pyReadlines (fileContent fsTwoLines ("output_1.txt"))).map pyStrip = [("a"), ("b")] ∧
    pySplitlines ("a\n") = [("a")] ∧
    differCompare [("a")] [("a"), ("b")] = [("  a"), ("+ b")] ∧
    run ("0001-demo") fsTwoLines progFirstLineOnly =
      ([Event.printed (("Running '0001-demo/input_1.txt': ")), Event.opened ("input_1.txt"),
        Event.executed ("1\n"), Event.opened ("output_1.txt"), Event.printed ("OK")],
       none) := by
  refine ⟨by decide, by decide, by decide, ?_⟩
  decide

/-- C2 amended: for every fixture pair whose candidate process completes
with status 0 and whose actual output lines are exactly the normalized
expected lines with the last line removed, the diff aligns the common
lines and adds one `+ ` line, so its line count equals the expected line
count and the run reports `OK` for that fixture (a false pass) instead of
the claimed `FAIL`. -/
theorem one_fewer_line_ok (d : String) (fs : FileSys) (prog : Prog)
    (i o : String) (rest : List (String × String)) (s x : String)
    (hexec : prog (fileContent fs i) = ExecResult.completed 0 s)
    (hexp : (pyReadlines (fileContent fs o)).map pyStrip = pySplitlines s ++ [x]) :
    execLoop d fs prog ((i, o) :: rest) =
      ([Event.printed (("Running '") ++ pathJoin d i ++ ("': ")), Event.opened i,
        Event.executed (fileContent fs i), Event.opened o, Event.printed ("OK")] ++
          (execLoop d fs prog rest).1,
       (execLoop d fs prog rest).2) ∧
    differCompare (pySplitlines s) ((pyReadlines (fileContent fs o)).map pyStrip) =
      (pySplitlines s).map (fun l => ("  ") ++ l) ++ [("+ ") ++ x] := by
  have hdiff := differCompare_self_append (pySplitlines s) x
  constructor
  · apply execLoop_cons_pass d fs prog i o rest s hexec
    rw [hexp, hdiff]
    simp
  · rw [hexp, hdiff]

/-- Witness for C2's amended theorem, at the `fsTwoLines` instance. -/
theorem one_fewer_line_ok_witness :
    (progFirstLineOnly (fileContent fsTwoLines ("input_1.txt")) =
       ExecResult.completed 0 ("a\n") ∧
     (pyReadlines (fileContent fsTwoLines ("output_1.txt"))).map pyStrip =
       pySplitlines ("a\n") ++ [("b")]) ∧
    (execLoop ("0001-demo") fsTwoLines progFirstLineOnly
        [(("input_1.txt"), ("output_1.txt"))] =
      ([Event.printed (("Running '") ++ pathJoin ("0001-demo") ("input_1.txt") ++ ("': ")),
        Event.opened ("input_1.txt"),
        Event.executed (fileContent fsTwoLines ("input_1.txt")),
        Event.opened ("output_1.txt"), Event.printed ("OK")] ++
          (execLoop ("0001-demo") fsTwoLines progFirstLineOnly []).1,
       (execLoop ("0001-demo") fsTwoLines progFirstLineOnly []).2) ∧
     differCompare (pySplitlines ("a\n"))
         ((pyReadlines (fileContent fsTwoLines ("output_1.txt"))).map pyStrip) =
       (pySplitlines ("a\n")).map (fun l => ("  ") ++ l) ++ [("+ ") ++ ("b")]) :=
  ⟨⟨rfl, by decide⟩,
   one_fewer_line_ok ("0001-demo") fsTwoLines progFirstLineOnly ("input_1.txt")
     ("output_1.txt") [] ("a\n") ("b") rfl (by decide)⟩

/-- C3: the comparison normalizes the expected side only.  Reading the
expected fixture ` ab \n` yields the stripped line `ab`, while splitting
the same text as candidate output keeps ` ab ` intact; consequently a
candidate printing `ab` against the expected fixture ` ab \n` passes,
while a candidate printing ` ab ` against the expected fixture `ab\n`
fails with a diff whose deletion line still carries the whitespace. -/
theorem expected_stripped_actual_not :
    ((pyReadlines (" ab \n")).map pyStrip = [("ab")] ∧
     pySplitlines (" ab \n") = [(" ab ")]) ∧
    run ("g") fsSpacedExpected progPlainAb =
      ([Event.printed (("Running 'g/input_1.txt': ")), Event.opened ("input_1.txt"),
        Event.executed ("ab\n"), Event.opened ("output_1.txt"), Event.printed ("OK")],
       none) ∧
    run ("g") fsPlainExpected progSpacedAb =
      ([Event.printed (("Running 'g/input_1.txt': ")), Event.opened ("input_1.txt"),
        Event.executed ("ab\n"), Event.opened ("output_1.txt"), Event.printed ("FAIL")],
       some (RunError.notExpectedOutput [("-  ab "), ("+ ab")])) := by
  refine ⟨⟨by decide, by decide⟩, ?_, ?_⟩ <;> decide

/-- C4 counterexample: the discovered input fixture `input_input_1.txt`
contains the token `input_` twice; Python's `replace` substitutes both
occurrences, so the computed counterpart is `output_output_1.txt` — the
identifier part `input_1` is not preserved verbatim (that reading would
give `output_input_1.txt`). -/
theorem pairing_token_cx :
    matchesInputGlob ("input_input_1.txt") = true ∧
    outputName ("input_input_1.txt") = ("output_output_1.txt") ∧
    outputName ("input_input_1.txt") ≠ ("output_") ++ ("input_1.txt") := by
  decide

/-- C4 amended: the counterpart name is computed by replacing every
occurrence of the token `input_` with `output_`; whenever the remainder of
the filename contains no further occurrence of the token (in particular
for every name containing the token exactly once, the usual case), the
remainder — identifier and extension — is preserved verbatim. -/
theorem pairing_single_token (r : String) (h : hasInputTok r.toList = false) :
    outputName (("input_") ++ r) = ("output_") ++ r := by
  unfold outputName
  rw [show (("input_") ++ r).toList =
        'i' :: 'n' :: 'p' :: 'u' :: 't' :: '_' :: r.toList from rfl]
  rw [replaceInputToken]
  rw [replaceInputToken_id r.toList h]
  rfl

/-- Witness for C4's amended theorem: the typical fixture name
`input_1.txt`. -/
theorem pairing_single_token_witness :
    hasInputTok ("1.txt").toList = false ∧
    outputName (("input_") ++ ("1.txt")) = ("output_") ++ ("1.txt") :=
  ⟨by decide, pairing_single_token ("1.txt") (by decide)⟩

end Runner

namespace Runner

/-- C5: when the exercise directory contains no `solution.py`, the run
raises `SolutionNotFoundError` with an empty event trace — no fixture is
discovered, opened or executed. -/
theorem missing_solution_aborts (d : String) (fs : FileSys) (prog : Prog)
    (h : fileExists fs ("solution.py") = false) :
    run d fs prog = ([], some RunError.solutionNotFound) := by
  unfold run
  rw [h]
  simp

/-- Witness for C5: a directory holding only an input fixture. -/
theorem missing_solution_aborts_witness :
    fileExists fsNoSolution ("solution.py") = false ∧
    run ("g") fsNoSolution progEmptyOut = ([], some RunError.solutionNotFound) :=
  ⟨by decide, missing_solution_aborts ("g") fsNoSolution progEmptyOut (by decide)⟩

/-- C6: when some discovered input fixture has no counterpart on disk, the
run aborts with `MissingTestOutputError` carrying the offending input path
and the computed missing output path (those of the first such fixture in
discovery order), with an empty event trace — no candidate-program
execution happens, even for fixtures whose counterparts exist. -/
theorem missing_output_aborts (d : String) (fs : FileSys) (prog : Prog) (i : String)
    (hsol : fileExists fs ("solution.py") = true)
    (hmem : i ∈ discoverInputs fs)
    (hmiss : fileExists fs (outputName i) = false) :
    ∃ i0, i0 ∈ discoverInputs fs ∧ fileExists fs (outputName i0) = false ∧
      run d fs prog =
        ([], some (RunError.missingTestOutput (pathJoin d i0)
          (pathJoin d (outputName i0)))) := by
  obtain ⟨i0, hfind, hbs⟩ := buildSuite_error_first fs (discoverInputs fs) i hmem hmiss
  refine ⟨i0, List.mem_of_find?_eq_some hfind, ?_, ?_⟩
  · have hp := List.find?_some hfind
    simpa using hp
  · unfold run
    rw [hsol, hbs]
    simp

/-- Witness for C6: a directory with a solution and an unmatched input
fixture. -/
theorem missing_output_aborts_witness :
    (fileExists fsMissingOut ("solution.py") = true ∧
     ("input_1.txt") ∈ discoverInputs fsMissingOut ∧
     fileExists fsMissingOut (outputName ("input_1.txt")) = false) ∧
    (∃ i0, i0 ∈ discoverInputs fsMissingOut ∧
      fileExists fsMissingOut (outputName i0) = false ∧
      run ("g") fsMissingOut progEmptyOut =
        ([], some (RunError.missingTestOutput (pathJoin ("g") i0)
          (pathJoin ("g") (outputName i0))))) :=
  ⟨⟨by decide, by decide, by decide⟩,
   missing_output_aborts ("g") fsMissingOut progEmptyOut ("input_1.txt")
     (by decide) (by decide) (by decide)⟩

/-- C7: when the verdict loop reaches a fixture (all earlier fixtures
passed) whose candidate process exits nonzero or cannot be launched, the
run aborts there with a propagated error: no `FAIL` verdict is printed, no
diff is computed (the expected-output fixture is not even opened), and no
later fixture is attempted. -/
theorem exec_failure_aborts (d : String) (fs : FileSys) (prog : Prog)
    (pre post : List (String × String)) (i o : String)
    (hpre : ∀ p ∈ pre, pairPasses fs prog p)
    (hfail : prog (fileContent fs i) = ExecResult.launchFailure ∨
      ∃ c s, c ≠ 0 ∧ prog (fileContent fs i) = ExecResult.completed c s) :
    ∃ e, execLoop d fs prog (pre ++ (i, o) :: post) =
        ((pre.map (passEvents d fs)).flatten ++
           [Event.printed (("Running '") ++ pathJoin d i ++ ("': ")), Event.opened i,
            Event.executed (fileContent fs i)], some e) ∧
      (e = RunError.osError ∨ ∃ c, c ≠ 0 ∧ e = RunError.calledProcessError c) := by
  rw [execLoop_pass_front d fs prog pre ((i, o) :: post) hpre]
  rcases hfail with h | ⟨c, s, hc, h⟩
  · refine ⟨RunError.osError, ?_, Or.inl rfl⟩
    simp [execLoop, h]
  · refine ⟨RunError.calledProcessError c, ?_, Or.inr ⟨c, hc, rfl⟩⟩
    simp [execLoop, h, hc]

/-- Witness for C7: the first fixture passes, the second one's process
exits with status 3. -/
theorem exec_failure_aborts_witness :
    ∃ e, execLoop ("g") fsTwoFixtures progFailsOnTwo
          ([(("i1"), ("o1"))] ++ (("i2"), ("o2")) :: []) =
        (([(("i1"), ("o1"))].map (passEvents ("g") fsTwoFixtures)).flatten ++
           [Event.printed (("Running '") ++ pathJoin ("g") ("i2") ++ ("': ")),
            Event.opened ("i2"), Event.executed (fileContent fsTwoFixtures ("i2"))],
         some e) ∧
      (e = RunError.osError ∨ ∃ c, c ≠ 0 ∧ e = RunError.calledProcessError c) :=
  exec_failure_aborts ("g") fsTwoFixtures progFailsOnTwo [(("i1"), ("o1"))] []
    ("i2") ("o2")
    (by
      intro p hp
      rw [List.mem_singleton] at hp
      subst hp
      exact ⟨(""), rfl, by decide⟩)
    (Or.inr ⟨3, (""), by decide, rfl⟩)

/-- C8: at the command line, a well-formed identifier matching no directory
prints the `cannot be found` message and exits with code 1, while a fully
successful run prints its per-fixture lines followed by `Bravo` and exits
with code 0. -/
theorem cli_not_found_and_bravo (p g : String) (root : List (String × FileSys))
    (prog : Prog) (sel : String × FileSys) :
    (matchesGameId g = true → (∀ d ∈ root, strStarts d.1 g = false) →
      main [p, g] root prog = ([("Game [") ++ g ++ ("] cannot be found")], 1)) ∧
    (matchesGameId g = true → root.find? (fun d => strStarts d.1 g) = some sel →
      (run sel.1 sel.2 prog).2 = none →
      main [p, g] root prog = (printsOf (run sel.1 sel.2 prog).1 ++ [("Bravo")], 0)) := by
  constructor
  · intro hid hnone
    have hfind : root.find? (fun d => strStarts d.1 g) = none :=
      List.find?_eq_none.mpr (fun x hx => by simp [hnone x hx])
    simp [main, hid, hfind]
  · intro hid hfind hnone
    simp [main, hid, hfind, hnone]

/-- Witness for C8: the unknown identifier `9999` and the successful run
of `0001-demo`. -/
theorem cli_not_found_and_bravo_witness :
    (matchesGameId ("9999") = true ∧
     (∀ d ∈ rootDemo, strStarts d.1 ("9999") = false) ∧
     main [("runner.py"), ("9999")] rootDemo progEmptyOut =
       ([("Game [") ++ ("9999") ++ ("] cannot be found")], 1)) ∧
    (matchesGameId ("0001") = true ∧
     rootDemo.find? (fun d => strStarts d.1 ("0001")) = some (("0001-demo"), fsSolOnly) ∧
     (run ("0001-demo") fsSolOnly progEmptyOut).2 = none ∧
     main [("runner.py"), ("0001")] rootDemo progEmptyOut =
       (printsOf (run ("0001-demo") fsSolOnly progEmptyOut).1 ++ [("Bravo")], 0)) :=
  ⟨⟨by decide, by decide,
    (cli_not_found_and_bravo ("runner.py") ("9999") rootDemo progEmptyOut
        (("0001-demo"), fsSolOnly)).1 (by decide) (by decide)⟩,
   ⟨by decide, by decide, by decide,
    (cli_not_found_and_bravo ("runner.py") ("0001") rootDemo progEmptyOut
        (("0001-demo"), fsSolOnly)).2 (by decide) (by decide) (by decide)⟩⟩

/-- C9: the run is a pure function of the directory contents and the
candidate program: two runs over equal directories with equal (fixed,
deterministic) candidate programs produce identical event traces — hence
identical per-fixture `OK`/`FAIL` verdicts — and identical errors. -/
theorem run_deterministic (d : String) (fs fs2 : FileSys) (prog prog2 : Prog)
    (hfs : fs = fs2) (hprog : prog = prog2) :
    run d fs prog = run d fs2 prog2 := by
  rw [hfs, hprog]

/-- Witness for C9. -/
theorem run_deterministic_witness :
    fsSolOnly = fsSolOnly ∧
    run ("0001-demo") fsSolOnly progEmptyOut = run ("0001-demo") fsSolOnly progEmptyOut :=
  ⟨rfl, run_deterministic ("0001-demo") fsSolOnly fsSolOnly progEmptyOut progEmptyOut
    rfl rfl⟩

/-- C10: a directory with a solution but no name matching `input_*.txt`
yields an empty event trace (no execution, no print, no open), no error,
and the command-line entry point prints `Bravo` and exits with code 0. -/
theorem no_fixtures_bravo (d : String) (fs : FileSys) (prog : Prog) (p g : String)
    (root : List (String × FileSys))
    (hsol : fileExists fs ("solution.py") = true)
    (hnofix : ∀ f ∈ fs, matchesInputGlob f.1 = false) :
    run d fs prog = ([], none) ∧
    (matchesGameId g = true → root.find? (fun e => strStarts e.1 g) = some (d, fs) →
      main [p, g] root prog = ([("Bravo")], 0)) := by
  have hdisc : discoverInputs fs = [] := by
    unfold discoverInputs
    rw [List.filter_eq_nil_iff.mpr (fun f hf => by simp [hnofix f hf])]
    rfl
  have hrun : run d fs prog = ([], none) := by
    unfold run
    rw [hsol, hdisc]
    simp [buildSuite, execLoop]
  refine ⟨hrun, fun hid hfind => ?_⟩
  simp [main, hid, hfind, hrun, printsOf]

/-- Witness for C10: the fixture-free directory `0001-demo`. -/
theorem no_fixtures_bravo_witness :
    (fileExists fsSolOnly ("solution.py") = true ∧
     (∀ f ∈ fsSolOnly, matchesInputGlob f.1 = false) ∧
     matchesGameId ("0001") = true ∧
     rootDemo.find? (fun e => strStarts e.1 ("0001")) = some (("0001-demo"), fsSolOnly)) ∧
    (run ("0001-demo") fsSolOnly progEmptyOut = ([], none) ∧
     main [("runner.py"), ("0001")] rootDemo progEmptyOut = ([("Bravo")], 0)) :=
  ⟨⟨by decide, by decide, by decide, by decide⟩,
   ⟨(no_fixtures_bravo ("0001-demo") fsSolOnly progEmptyOut ("runner.py") ("0001")
       rootDemo (by decide) (by decide)).1,
    (no_fixtures_bravo ("0001-demo") fsSolOnly progEmptyOut ("runner.py") ("0001")
       rootDemo (by decide) (by decide)).2 (by decide) (by decide)⟩⟩

end Runner
